import Mathlib

/-!
Verification of the NotiBoost Node.js SDK request dispatcher and resource
wrappers, shallowly embedded from `src/index.js`.
-/

namespace NotiBoostSdk

/-- Model of a JavaScript JSON value.  Numbers are modelled as integers: every
numeric value appearing in the dispatcher logic (status codes, retry counts,
delays) is integral. -/
inductive Json where
  | null : Json
  | bool (b : Bool) : Json
  | num (n : Int) : Json
  | str (s : String) : Json
  | arr (elems : List Json) : Json
  | obj (fields : List (String × Json)) : Json

/-- Property read `v[k]` on a JSON value: `some` the field value on objects
that carry the key, `none` (JS `undefined`) otherwise. -/
def Json.getField : Json → String → Option Json
  | .obj fs, k => fs.lookup k
  | _, _ => none

/-- JS truthiness of a JSON value: `null`, `false`, `0` and `""` are falsy,
everything else is truthy. -/
def Json.truthy : Json → Bool
  | .null => false
  | .bool b => b
  | .num n => n != 0
  | .str s => s != ""
  | .arr _ => true
  | .obj _ => true

/-- Property write `v[k] = x` on a JSON object: replaces the value in place
when the key exists, appends the key otherwise; identity on non-objects. -/
def Json.setField : Json → String → Json → Json
  | .obj fs, k, v =>
    if fs.any (fun p => p.1 == k) then
      .obj (fs.map (fun p => if p.1 == k then (k, v) else p))
    else
      .obj (fs ++ [(k, v)])
  | j, _, _ => j

/-- Escaping of one character inside a JSON string literal, as performed by
`JSON.stringify`. -/
def jsonEscapeChar (c : Char) : String :=
  if c == '"' then "\\\""
  else if c == '\\' then "\\\\"
  else if c == '\x08' then "\\b"
  else if c == '\x09' then "\\t"
  else if c == '\x0a' then "\\n"
  else if c == '\x0c' then "\\f"
  else if c == '\x0d' then "\\r"
  else if c.toNat < 32 then
    "\\u00" ++ String.singleton (Nat.digitChar (c.toNat / 16)) ++
      String.singleton (Nat.digitChar (c.toNat % 16))
  else
    String.singleton c

/-- Escaping of a whole string for a JSON string literal. -/
def jsonEscape (s : String) : String :=
  String.join (s.toList.map jsonEscapeChar)

/-- Model of the JS builtin `JSON.stringify` (no spacing), used by the
dispatcher to serialize request bodies. -/
def Json.stringify : Json → String
  | .null => "null"
  | .bool b => cond b "true" "false"
  | .num n => toString n
  | .str s => "\"" ++ jsonEscape s ++ "\""
  | .arr xs => "[" ++ String.intercalate "," (xs.attach.map (fun x => x.1.stringify)) ++ "]"
  | .obj fs => "\x7b" ++
      String.intercalate ","
        (fs.attach.map (fun p => "\"" ++ jsonEscape p.1.1 ++ "\":" ++ p.1.2.stringify)) ++
      "\x7d"
decreasing_by
  · have h := List.sizeOf_lt_of_mem x.2
    simp only [Json.arr.sizeOf_spec] at *
    omega
  · have h := List.sizeOf_lt_of_mem p.2
    have h2 : sizeOf p.1 = 1 + sizeOf p.1.1 + sizeOf p.1.2 := by
      obtain ⟨⟨a, b⟩, hp⟩ := p
      simp
    simp only [Json.obj.sizeOf_spec] at *
    omega

/-- Test for the null constructor, used where JS turns `null` into an empty
string during array joining. -/
def Json.isNull : Json → Bool
  | .null => true
  | _ => false

/-- Model of the JS string coercion `String(v)`, as applied by the `Error`
constructor to a non-string message value. -/
def Json.toJsString : Json → String
  | .null => "null"
  | .bool b => cond b "true" "false"
  | .num n => toString n
  | .str s => s
  | .arr xs => String.intercalate ","
      (xs.attach.map (fun x => if x.1.isNull then "" else x.1.toJsString))
  | .obj _ => "[object Object]"
decreasing_by
  have h := List.sizeOf_lt_of_mem x.2
  simp only [Json.arr.sizeOf_spec] at *
  omega

/-- Lookup of a key in a header mapping, modelling a JS object property read:
the mapping is an association list whose keys are unique. -/
def getHeader (hs : List (String × String)) (name : String) : Option String :=
  hs.lookup name

/-- Model of the JS property assignment `obj[k] = v` on a header mapping:
replaces the value in place when the key exists, appends it otherwise. -/
def setKey (hs : List (String × String)) (k v : String) : List (String × String) :=
  if hs.any (fun p => p.1 == k) then
    hs.map (fun p => if p.1 == k then (k, v) else p)
  else
    hs ++ [(k, v)]

/-- Model of the JS object spread `\x7b...base, ...ov\x7d`: copy the base
object, then assign each entry of the override object in order. -/
def spreadHeaders (base ov : List (String × String)) : List (String × String) :=
  ov.foldl (fun acc q => setKey acc q.1 q.2) base

/-- Numeric value of a list of decimal digit characters. -/
def digitsVal (ds : List Char) : Nat :=
  ds.foldl (fun n c => n * 10 + (c.toNat - 48)) 0

/-- Model of the JS builtin `parseInt(s, 10)`: skip leading whitespace, read
an optional sign and then the longest run of decimal digits; `none` models the
result `NaN` when no digit is found. -/
def jsParseInt (s : String) : Option Int :=
  let cs := s.toList.dropWhile (fun c => c == ' ' || c == '\t' || c == '\n' || c == '\r')
  let signed : Int × List Char :=
    match cs with
    | '-' :: r => (-1, r)
    | '+' :: r => (1, r)
    | _ => (1, cs)
  let ds := signed.2.takeWhile Char.isDigit
  if ds.isEmpty then none else some (signed.1 * (digitsVal ds : Int))

/-- UTF-8 encoding of one character, as a list of byte values. -/
def charUtf8Bytes (c : Char) : List Nat :=
  let n := c.toNat
  if n < 0x80 then [n]
  else if n < 0x800 then [0xC0 + n / 0x40, 0x80 + n % 0x40]
  else if n < 0x10000 then
    [0xE0 + n / 0x1000, 0x80 + (n / 0x40) % 0x40, 0x80 + n % 0x40]
  else
    [0xF0 + n / 0x40000, 0x80 + (n / 0x1000) % 0x40, 0x80 + (n / 0x40) % 0x40, 0x80 + n % 0x40]

/-- Model of the JS builtin `Buffer.byteLength(s)`: the UTF-8 byte length of a
string. -/
def strUtf8Len (s : String) : Nat :=
  (s.toList.map (fun c => (charUtf8Bytes c).length)).sum

/-- Uppercase hexadecimal digit for a value below 16. -/
def hexDigitU (n : Nat) : Char :=
  if n < 10 then Char.ofNat (48 + n) else Char.ofNat (55 + n)

/-- Percent-encoding of one byte value. -/
def percentByte (b : Nat) : String :=
  "%" ++ String.singleton (hexDigitU (b / 16)) ++ String.singleton (hexDigitU (b % 16))

/-- Encoding of one character by the `application/x-www-form-urlencoded`
serializer used by `URLSearchParams`: ASCII alphanumerics and `*-._` are kept,
space becomes `+`, everything else is percent-encoded bytewise. -/
def formUrlencodeChar (c : Char) : String :=
  if c.isAlphanum && c.toNat < 128 then String.singleton c
  else if c == '*' || c == '-' || c == '.' || c == '_' then String.singleton c
  else if c == ' ' then "+"
  else String.join ((charUtf8Bytes c).map percentByte)

/-- Encoding of a whole string by the urlencoded serializer. -/
def formUrlencode (s : String) : String :=
  String.join (s.toList.map formUrlencodeChar)

/-- Model of `new URLSearchParams(options).toString()`: each key/value pair is
encoded as `key=value` and the pairs are joined with ampersands. -/
def serializeQuery (ps : List (String × String)) : String :=
  String.intercalate "&" (ps.map (fun p => formUrlencode p.1 ++ "=" ++ formUrlencode p.2))

/-- Raw outcome of one successful HTTP exchange, before body parsing: status
code, response headers (keys lowercased by the runtime) and the accumulated
body text. -/
structure RawResponse where
  statusCode : Nat
  headers : List (String × String)
  body : String

/-- Response as resolved by `_makeRequest`: status code, headers and the
parsed body. -/
structure Response where
  statusCode : Nat
  headers : List (String × String)
  data : Json

/-- Body handling in `_makeRequest`'s end handler: an empty body yields the
empty object, otherwise the body is JSON-parsed and a parse failure falls back
to an object holding the raw text in a message field.  The JS builtin
`JSON.parse` is abstracted as a function returning `none` exactly on the
inputs where it would throw. -/
def parseBody (parse : String → Option Json) (data : String) : Json :=
  if data == "" then Json.obj []
  else
    match parse data with
    | some j => j
    | none => Json.obj [("message", Json.str data)]

/-- Assembly of the resolved response object in `_makeRequest`. -/
def mkResponse (parse : String → Option Json) (r : RawResponse) : Response :=
  { statusCode := r.statusCode, headers := r.headers, data := parseBody parse r.body }

/-- Result of one `_makeRequest` call: the promise either resolves with a
response or rejects with a transport error (connection error or timeout),
modelled by its message string.  The transport is modelled as a function from
the attempt index to that attempt's outcome. -/
def netOf (parse : String → Option Json) (rawNet : Nat → Except String RawResponse) :
    Nat → Except String Response :=
  fun i => (rawNet i).map (mkResponse parse)

/-- Final outcome of `NotiBoostClient.request`: a returned payload, a thrown
`NotiBoostError` (message, statusCode, response body), or a propagated
transport error.  `noAttempt` corresponds to the trailing `throw lastError`
after the loop, which is unreachable from a real call. -/
inductive Outcome where
  | ok (data : Json)
  | notiBoostError (message : String) (statusCode : Nat) (response : Json)
  | transportError (message : String)
  | noAttempt

/-- Observable result of a dispatch: the outcome, the number of HTTP attempts
made (`_makeRequest` calls), and the requested sleep durations in
milliseconds, in order.  A `none` entry models a `NaN` duration (from
`parseInt` returning `NaN`). -/
structure RequestResult where
  outcome : Outcome
  attempts : Nat
  sleeps : List (Option Int)

/-- Message of the `NotiBoostError` built for a non-2xx response:
`response.data?.message || "HTTP <code>"` — the message field when it exists
and is truthy, else the generic text. -/
def errMessage (resp : Response) : String :=
  match resp.data.getField "message" with
  | some v => if v.truthy then v.toJsString else "HTTP " ++ toString resp.statusCode
  | none => "HTTP " ++ toString resp.statusCode

/-- Requested sleep before a 429 retry, in milliseconds:
`parseInt(response.headers['retry-after'] || '1', 10) * 1000`.  An absent or
empty header falls back to the string "1"; a non-empty header that `parseInt`
cannot parse gives `NaN`, modelled as `none`. -/
def retryAfterDelayMs (resp : Response) : Option Int :=
  let raw : String :=
    match getHeader resp.headers "retry-after" with
    | some s => if s == "" then "1" else s
    | none => "1"
  (jsParseInt raw).map (fun n => n * 1000)

/-- Body of the retry loop in `NotiBoostClient.request`, one recursive call
per iteration of `for (let attempt = 0; attempt <= this.retries; attempt++)`.
A thrown `NotiBoostError` is caught by the catch block and immediately
rethrown (it never passes the `!(error instanceof NotiBoostError)` test), so
both throw sites collapse to returning the error outcome. -/
def requestGo (retries : Nat) (net : Nat → Except String Response)
    (attempt : Nat) (sleeps : List (Option Int)) : RequestResult :=
  if attempt ≤ retries then
    match net attempt with
    | .ok resp =>
      if 200 ≤ resp.statusCode ∧ resp.statusCode < 300 then
        { outcome := .ok resp.data, attempts := attempt + 1, sleeps := sleeps }
      else if h : resp.statusCode = 429 ∧ attempt < retries then
        requestGo retries net (attempt + 1) (sleeps ++ [retryAfterDelayMs resp])
      else
        { outcome := .notiBoostError (errMessage resp) resp.statusCode resp.data,
          attempts := attempt + 1, sleeps := sleeps }
    | .error e =>
      if h : attempt < retries then
        requestGo retries net (attempt + 1) (sleeps ++ [some ((2 : Int) ^ attempt * 1000)])
      else
        { outcome := .transportError e, attempts := attempt + 1, sleeps := sleeps }
  else
    { outcome := .noAttempt, attempts := attempt, sleeps := sleeps }
termination_by retries + 1 - attempt
decreasing_by
  · omega
  · omega

/-- Dispatch of one logical call: run the retry loop from attempt 0. -/
def request (retries : Nat) (net : Nat → Except String Response) : RequestResult :=
  requestGo retries net 0 []

/-- Dispatch measured from the raw transport: each successful exchange goes
through `_makeRequest`'s body parsing before the retry loop inspects it. -/
def requestRaw (retries : Nat) (parse : String → Option Json)
    (rawNet : Nat → Except String RawResponse) : RequestResult :=
  request retries (netOf parse rawNet)

/-- Options object passed to the `NotiBoostClient` constructor; `none` models
an absent property.  The numeric options are modelled over the values they
take in the SDK's documented usage (non-negative integers). -/
structure ClientOptions where
  apiKey : Option String := none
  baseURL : Option String := none
  timeout : Option Int := none
  retries : Option Nat := none

/-- Configuration stored on the client by the constructor. -/
structure Client where
  apiKey : String
  baseURL : String
  timeout : Int
  retries : Nat

/-- JS defaulting `x || d` for an optional string option: an absent or empty
(falsy) value yields the default. -/
def orDefaultStr (v : Option String) (d : String) : String :=
  match v with
  | some s => if s == "" then d else s
  | none => d

/-- JS defaulting `x || d` for an optional integer option: an absent or zero
(falsy) value yields the default. -/
def orDefaultInt (v : Option Int) (d : Int) : Int :=
  match v with
  | some n => if n == 0 then d else n
  | none => d

/-- JS defaulting `x || d` for an optional natural-number option. -/
def orDefaultNat (v : Option Nat) (d : Nat) : Nat :=
  match v with
  | some n => if n == 0 then d else n
  | none => d

/-- Model of the `NotiBoostClient` constructor: a missing (or falsy) API key
throws, otherwise each configuration field is stored with its `||` default. -/
def mkClient (opts : ClientOptions) : Except String Client :=
  match opts.apiKey with
  | none => .error "API key is required"
  | some k =>
    if k == "" then .error "API key is required"
    else
      .ok { apiKey := k,
            baseURL := orDefaultStr opts.baseURL "https://api.notiboost.com",
            timeout := orDefaultInt opts.timeout 30000,
            retries := orDefaultNat opts.retries 3 }

/-- Header object built at the top of `request`: the two default headers
spread together with the caller-supplied overrides. -/
def buildHeaders (apiKey : String) (ov : List (String × String)) : List (String × String) :=
  spreadHeaders
    [("Authorization", "Bearer " ++ apiKey), ("Content-Type", "application/json")] ov

/-- Serialized request body: present exactly when `data` is truthy and the
method is POST or PUT, in which case it is the `JSON.stringify` of the data. -/
def requestBody (method : String) (data : Option Json) : Option String :=
  match data with
  | some d =>
    if d.truthy && (method == "POST" || method == "PUT") then some d.stringify else none
  | none => none

/-- Headers as dispatched: the spread result, with `Content-Length` assigned
afterwards whenever a body is sent (`Buffer.byteLength(body)`, rendered as a
header value). -/
def dispatchHeaders (apiKey : String) (ov : List (String × String))
    (method : String) (data : Option Json) : List (String × String) :=
  match requestBody method data with
  | some b => setKey (buildHeaders apiKey ov) "Content-Length" (toString (strUtf8Len b))
  | none => buildHeaders apiKey ov

/-- Everything observable about one `NotiBoostClient.request` call: the
dispatched headers and body, the retry-loop result, and the state of the
client configuration when the call returns.  The method body only reads
`this.apiKey`, `this.baseURL`, `this.timeout` and `this.retries`; it never
assigns to `this`, so the configuration is passed through unchanged. -/
structure DispatchResult where
  headers : List (String × String)
  body : Option String
  result : RequestResult
  clientAfter : Client

/-- Model of a full `NotiBoostClient.request` call. -/
def clientRequest (c : Client) (method : String) (data : Option Json)
    (ovHeaders : List (String × String)) (net : Nat → Except String Response) :
    DispatchResult :=
  { headers := dispatchHeaders c.apiKey ovHeaders method data,
    body := requestBody method data,
    result := requestGo c.retries net 0 [],
    clientAfter := c }

/-- Logical request produced by a resource wrapper before dispatch. -/
structure RequestDescriptor where
  method : String
  path : String
  data : Option Json

/-- Observable effect of `events.ingest`: the state of the caller's event
object after the call, and the dispatched request.  The wrapper assigns
`event.occurred_at` on the caller's own object when the field is missing or
falsy, then dispatches that same object, so the dispatched payload and the
caller's post-call object coincide. -/
structure IngestEffect where
  callerEvent : Json
  dispatched : RequestDescriptor

/-- Event object as it stands after the `if (!event.occurred_at)` guard of
`EventsClient.ingest`: when the field is missing or falsy it is assigned the
ISO string `now` of the call-time clock reading
(`new Date().toISOString()`). -/
def ingestPayload (now : String) (event : Json) : Json :=
  if (event.getField "occurred_at").elim false Json.truthy then event
  else event.setField "occurred_at" (Json.str now)

/-- Model of `EventsClient.ingest`: the guarded assignment mutates the
caller's object, and that same object is then dispatched. -/
def eventsIngest (now : String) (event : Json) : IngestEffect :=
  { callerEvent := ingestPayload now event,
    dispatched := { method := "POST", path := "/api/v1/events",
                    data := some (ingestPayload now event) } }

/-- Path built by `TemplatesClient.list`: the serialized options are appended
after a question mark when the query string is truthy (non-empty). -/
def templatesListPath (options : List (String × String)) : String :=
  let query := serializeQuery options
  if query == "" then "/api/v1/templates" else "/api/v1/templates?" ++ query

/-- Model of `TemplatesClient.list`: a GET with no body on the built path. -/
def templatesList (options : List (String × String)) : RequestDescriptor :=
  { method := "GET", path := templatesListPath options, data := none }

/-! Branch lemmas for the retry loop, one per exit or continuation path. -/

theorem requestGo_2xx (retries : Nat) (net : Nat → Except String Response)
    (attempt : Nat) (sleeps : List (Option Int)) (resp : Response)
    (hle : attempt ≤ retries) (hn : net attempt = .ok resp)
    (h2 : 200 ≤ resp.statusCode ∧ resp.statusCode < 300) :
    requestGo retries net attempt sleeps =
      { outcome := .ok resp.data, attempts := attempt + 1, sleeps := sleeps } := by
  rw [requestGo, if_pos hle, hn]
  simp [h2]

theorem requestGo_429_retry (retries : Nat) (net : Nat → Except String Response)
    (attempt : Nat) (sleeps : List (Option Int)) (resp : Response)
    (hn : net attempt = .ok resp) (h429 : resp.statusCode = 429)
    (hlt : attempt < retries) :
    requestGo retries net attempt sleeps =
      requestGo retries net (attempt + 1) (sleeps ++ [retryAfterDelayMs resp]) := by
  have hno2 : ¬(200 ≤ resp.statusCode ∧ resp.statusCode < 300) := by omega
  rw [requestGo, if_pos (Nat.le_of_lt hlt), hn]
  simp [hno2, h429, hlt]

theorem requestGo_apiError (retries : Nat) (net : Nat → Except String Response)
    (attempt : Nat) (sleeps : List (Option Int)) (resp : Response)
    (hle : attempt ≤ retries) (hn : net attempt = .ok resp)
    (hno2 : ¬(200 ≤ resp.statusCode ∧ resp.statusCode < 300))
    (hcase : ¬(resp.statusCode = 429 ∧ attempt < retries)) :
    requestGo retries net attempt sleeps =
      { outcome := .notiBoostError (errMessage resp) resp.statusCode resp.data,
        attempts := attempt + 1, sleeps := sleeps } := by
  rw [requestGo, if_pos hle, hn]
  simp [hno2, hcase]

theorem requestGo_err_retry (retries : Nat) (net : Nat → Except String Response)
    (attempt : Nat) (sleeps : List (Option Int)) (e : String)
    (hn : net attempt = .error e) (hlt : attempt < retries) :
    requestGo retries net attempt sleeps =
      requestGo retries net (attempt + 1) (sleeps ++ [some ((2 : Int) ^ attempt * 1000)]) := by
  rw [requestGo, if_pos (Nat.le_of_lt hlt), hn]
  simp [hlt]

theorem requestGo_err_done (retries : Nat) (net : Nat → Except String Response)
    (attempt : Nat) (sleeps : List (Option Int)) (e : String)
    (hle : attempt ≤ retries) (hn : net attempt = .error e)
    (hnlt : ¬attempt < retries) :
    requestGo retries net attempt sleeps =
      { outcome := .transportError e, attempts := attempt + 1, sleeps := sleeps } := by
  rw [requestGo, if_pos hle, hn]
  simp [hnlt]

theorem requestGo_attempts_le (retries : Nat) (net : Nat → Except String Response) :
    ∀ (fuel attempt : Nat) (sleeps : List (Option Int)),
      attempt ≤ retries → retries - attempt < fuel →
      (requestGo retries net attempt sleeps).attempts ≤ retries + 1 := by
  intro fuel
  induction fuel with
  | zero => intro attempt sleeps h1 h2; omega
  | succ n ih =>
    intro attempt sleeps hle hf
    cases hn : net attempt with
    | ok resp =>
      by_cases h2 : 200 ≤ resp.statusCode ∧ resp.statusCode < 300
      · rw [requestGo_2xx retries net attempt sleeps resp hle hn h2]
        show attempt + 1 ≤ retries + 1
        omega
      · by_cases h3 : resp.statusCode = 429 ∧ attempt < retries
        · rw [requestGo_429_retry retries net attempt sleeps resp hn h3.1 h3.2]
          exact ih (attempt + 1) _ h3.2 (by omega)
        · rw [requestGo_apiError retries net attempt sleeps resp hle hn h2 h3]
          show attempt + 1 ≤ retries + 1
          omega
    | error e =>
      by_cases h3 : attempt < retries
      · rw [requestGo_err_retry retries net attempt sleeps e hn h3]
        exact ih (attempt + 1) _ h3 (by omega)
      · rw [requestGo_err_done retries net attempt sleeps e hle hn h3]
        show attempt + 1 ≤ retries + 1
        omega

theorem request_attempts_le (retries : Nat) (net : Nat → Except String Response) :
    (request retries net).attempts ≤ retries + 1 :=
  requestGo_attempts_le retries net (retries + 1) 0 [] (Nat.zero_le _) (by omega)

/-! Lemmas about association-list lookup, powering the header-mapping and
JSON-field reasoning. -/

theorem lookup_cons_self {b : Type} (k : String) (v : b) (t : List (String × b)) :
    ((k, v) :: t).lookup k = some v := by
  simp [List.lookup]

theorem lookup_cons_ne {b : Type} (k a : String) (v : b) (t : List (String × b))
    (h : a ≠ k) : ((k, v) :: t).lookup a = t.lookup a := by
  simp [List.lookup, beq_eq_false_iff_ne.mpr h]

theorem lookup_append {b : Type} (a : String) :
    ∀ l1 l2 : List (String × b),
      (l1 ++ l2).lookup a = ((l1.lookup a).orElse (fun _ => l2.lookup a)) := by
  intro l1
  induction l1 with
  | nil => intro l2; simp [Option.orElse]
  | cons p t ih =>
    intro l2
    obtain ⟨pk, pv⟩ := p
    by_cases hq : a = pk
    · subst hq
      rw [List.cons_append, lookup_cons_self, lookup_cons_self]
      simp [Option.orElse]
    · rw [List.cons_append, lookup_cons_ne pk a pv _ hq, lookup_cons_ne pk a pv t hq, ih]

theorem lookup_eq_none_of_any_false {b : Type} (k : String) :
    ∀ l : List (String × b), l.any (fun p => p.1 == k) = false → l.lookup k = none := by
  intro l
  induction l with
  | nil => intro _; rfl
  | cons p t ih =>
    intro h
    obtain ⟨pk, pv⟩ := p
    simp only [List.any_cons, Bool.or_eq_false_iff] at h
    have hne : k ≠ pk := fun he => by simp [he] at h
    rw [lookup_cons_ne pk k pv t hne]
    exact ih h.2

theorem any_eq_false_of_lookup_none {b : Type} (k : String) :
    ∀ l : List (String × b), l.lookup k = none → l.any (fun p => p.1 == k) = false := by
  intro l
  induction l with
  | nil => intro _; rfl
  | cons p t ih =>
    intro h
    obtain ⟨pk, pv⟩ := p
    by_cases hq : k = pk
    · subst hq
      rw [lookup_cons_self] at h
      cases h
    · rw [lookup_cons_ne pk k pv t hq] at h
      simp only [List.any_cons, Bool.or_eq_false_iff]
      constructor
      · simpa using fun he => hq he.symm
      · exact ih h

theorem lookup_map_replace (k v : String) :
    ∀ hs : List (String × String), hs.any (fun p => p.1 == k) = true →
      (hs.map (fun p => if p.1 == k then (k, v) else p)).lookup k = some v := by
  intro hs
  induction hs with
  | nil => intro h; simp at h
  | cons p t ih =>
    intro h
    obtain ⟨pk, pv⟩ := p
    simp only [List.map_cons]
    by_cases hp : (pk == k) = true
    · rw [if_pos hp]
      exact lookup_cons_self k v _
    · rw [if_neg hp]
      have hne : k ≠ pk := fun he => hp (by simp [he])
      rw [lookup_cons_ne pk k pv _ hne]
      apply ih
      simp only [List.any_cons, Bool.or_eq_true] at h
      exact h.resolve_left hp

theorem lookup_map_replace_other (k v k2 : String) (hne : k2 ≠ k) :
    ∀ hs : List (String × String),
      (hs.map (fun p => if p.1 == k then (k, v) else p)).lookup k2 = hs.lookup k2 := by
  intro hs
  induction hs with
  | nil => rfl
  | cons p t ih =>
    obtain ⟨pk, pv⟩ := p
    simp only [List.map_cons]
    by_cases hp : (pk == k) = true
    · rw [if_pos hp]
      have hpk : pk = k := by simpa using hp
      have hne2 : k2 ≠ pk := by rw [hpk]; exact hne
      rw [lookup_cons_ne k k2 v _ hne, lookup_cons_ne pk k2 pv t hne2]
      exact ih
    · rw [if_neg hp]
      by_cases hq : k2 = pk
      · subst hq
        rw [lookup_cons_self, lookup_cons_self]
      · rw [lookup_cons_ne pk k2 pv _ hq, lookup_cons_ne pk k2 pv t hq]
        exact ih

/-! Lemmas about the header-mapping operations. -/

theorem getHeader_setKey_self (hs : List (String × String)) (k v : String) :
    getHeader (setKey hs k v) k = some v := by
  unfold setKey getHeader
  by_cases hany : hs.any (fun p => p.1 == k) = true
  · rw [if_pos hany]
    exact lookup_map_replace k v hs hany
  · rw [if_neg hany]
    rw [lookup_append]
    rw [lookup_eq_none_of_any_false k hs (Bool.eq_false_iff.mpr hany)]
    rw [lookup_cons_self k v []]
    rfl

theorem getHeader_setKey_other (hs : List (String × String)) (k v k2 : String)
    (hne : k2 ≠ k) : getHeader (setKey hs k v) k2 = getHeader hs k2 := by
  unfold setKey getHeader
  by_cases hany : hs.any (fun p => p.1 == k) = true
  · rw [if_pos hany]
    exact lookup_map_replace_other k v k2 hne hs
  · rw [if_neg hany]
    rw [lookup_append]
    rw [lookup_cons_ne k k2 v [] hne]
    cases hl : hs.lookup k2 <;> simp [Option.orElse]

theorem getHeader_spread_not_mem (n : String) :
    ∀ ov base : List (String × String), n ∉ ov.map Prod.fst →
      getHeader (spreadHeaders base ov) n = getHeader base n := by
  intro ov
  induction ov with
  | nil => intro base _; rfl
  | cons q t ih =>
    intro base h
    simp only [List.map_cons, List.mem_cons, not_or] at h
    unfold spreadHeaders at ih ⊢
    simp only [List.foldl_cons]
    rw [ih (setKey base q.1 q.2) h.2]
    exact getHeader_setKey_other base q.1 q.2 n h.1

theorem getHeader_spread_mem (n v : String) :
    ∀ ov base : List (String × String), (ov.map Prod.fst).Nodup → (n, v) ∈ ov →
      getHeader (spreadHeaders base ov) n = some v := by
  intro ov
  induction ov with
  | nil => intro base _ h; simp at h
  | cons q t ih =>
    intro base hnd hm
    simp only [List.map_cons, List.nodup_cons] at hnd
    rcases List.mem_cons.mp hm with heq | hmt
    · have hq1 : q.1 = n := by rw [← heq]
      have hkeys : n ∉ t.map Prod.fst := by rw [← hq1]; exact hnd.1
      unfold spreadHeaders
      simp only [List.foldl_cons]
      have hnm := getHeader_spread_not_mem n t (setKey base q.1 q.2) hkeys
      unfold spreadHeaders at hnm
      rw [hnm, ← heq]
      exact getHeader_setKey_self base n v
    · unfold spreadHeaders at ih ⊢
      simp only [List.foldl_cons]
      exact ih (setKey base q.1 q.2) hnd.2 hmt

/-! Lemmas about JSON object field access and update. -/

theorem setField_of_getField_none (fs : List (String × Json)) (k : String) (v : Json)
    (h : (Json.obj fs).getField k = none) :
    (Json.obj fs).setField k v = Json.obj (fs ++ [(k, v)]) := by
  have hany : fs.any (fun p => p.1 == k) = false :=
    any_eq_false_of_lookup_none k fs h
  simp only [Json.setField, hany]
  simp

theorem getField_append_self (fs : List (String × Json)) (k : String) (v : Json)
    (h : (Json.obj fs).getField k = none) :
    (Json.obj (fs ++ [(k, v)])).getField k = some v := by
  simp only [Json.getField] at h ⊢
  rw [lookup_append, h]
  rw [lookup_cons_self k v []]
  rfl

theorem getField_append_other (fs : List (String × Json)) (k k2 : String) (v : Json)
    (hne : k2 ≠ k) :
    (Json.obj (fs ++ [(k, v)])).getField k2 = (Json.obj fs).getField k2 := by
  simp only [Json.getField]
  rw [lookup_append]
  rw [lookup_cons_ne k k2 v [] hne]
  cases hl : fs.lookup k2 <;> simp [Option.orElse]

/-- Closed form of a run whose every attempt fails at transport level: all
retries are consumed with exponential backoff and the error is surfaced. -/
theorem requestGo_const_error (retries : Nat) (e : String) :
    ∀ (fuel attempt : Nat) (sleeps : List (Option Int)),
      retries - attempt < fuel → attempt ≤ retries →
      requestGo retries (fun _ => Except.error e) attempt sleeps =
        { outcome := .transportError e, attempts := retries + 1,
          sleeps := sleeps ++
            ((List.range' attempt (retries - attempt)).map
              (fun i => some ((2 : Int) ^ i * 1000))) } := by
  intro fuel
  induction fuel with
  | zero => intro attempt sleeps h1 h2; omega
  | succ n ih =>
    intro attempt sleeps hf hle
    by_cases hlt : attempt < retries
    · rw [requestGo_err_retry retries _ attempt sleeps e rfl hlt]
      rw [ih (attempt + 1) _ (by omega) hlt]
      have hr : retries - attempt = (retries - (attempt + 1)) + 1 := by omega
      rw [hr, List.range'_succ, List.map_cons, List.append_assoc]
      rfl
    · have ha : attempt = retries := by omega
      rw [requestGo_err_done retries _ attempt sleeps e hle rfl hlt]
      subst ha
      simp

/-- Full dispatch against an always-failing transport: the transport error
comes back after exactly `retries + 1` attempts, with requested backoff
delays of 2^0, 2^1, ..., 2^(retries-1) seconds. -/
theorem request_const_error (retries : Nat) (e : String) :
    request retries (fun _ => Except.error e) =
      { outcome := .transportError e, attempts := retries + 1,
        sleeps := (List.range retries).map (fun i => some ((2 : Int) ^ i * 1000)) } := by
  unfold request
  rw [requestGo_const_error retries e (retries + 1) 0 [] (by omega) (by omega)]
  rw [List.range_eq_range']
  simp

/-! Claim C1. -/

/-- C1 (amended): for every configuration, a single dispatch makes at most
`1 + this.retries` HTTP attempts, where `this.retries` is the stored retry
count; but the constructor's `options.retries || 3` defaulting replaces a
retry count of 0 by the default 3, so a client constructed with a retry
count of 0 stores 3 and may make up to 4 attempts per call (a nonzero
constructed retry count is stored unchanged). -/
theorem C1_attempt_budget :
    (∀ (retries : Nat) (net : Nat → Except String Response),
        (request retries net).attempts ≤ retries + 1) ∧
    (∀ (opts : ClientOptions) (c : Client), mkClient opts = .ok c →
        opts.retries = some 0 → c.retries = 3) ∧
    (∀ (opts : ClientOptions) (c : Client) (r : Nat), mkClient opts = .ok c →
        opts.retries = some r → r ≠ 0 → c.retries = r) := by
  refine ⟨request_attempts_le, ?_, ?_⟩
  · intro opts c h hr
    unfold mkClient at h
    split at h
    · cases h
    · split at h
      · cases h
      · injection h with h2
        rw [← h2]
        show orDefaultNat opts.retries 3 = 3
        rw [hr]
        rfl
  · intro opts c r h hr hr0
    unfold mkClient at h
    split at h
    · cases h
    · split at h
      · cases h
      · injection h with h2
        rw [← h2]
        show orDefaultNat opts.retries 3 = r
        rw [hr]
        show (if (r == 0) = true then 3 else r) = r
        rw [if_neg (by simpa using hr0)]

/-- C1 witness: the attempt bound at a concrete run, and the constructor
defaulting at concrete option records. -/
theorem C1_attempt_budget_witness :
    (request 0 (fun _ => Except.error "connect ECONNREFUSED")).attempts ≤ 0 + 1 ∧
    (⟨"k", "https://api.notiboost.com", 30000, 3⟩ : Client).retries = 3 ∧
    (⟨"k", "https://api.notiboost.com", 30000, 7⟩ : Client).retries = 7 :=
  ⟨C1_attempt_budget.1 0 (fun _ => Except.error "connect ECONNREFUSED"),
   C1_attempt_budget.2.1 { apiKey := some "k", retries := some 0 }
     ⟨"k", "https://api.notiboost.com", 30000, 3⟩ rfl rfl,
   C1_attempt_budget.2.2 { apiKey := some "k", retries := some 7 }
     ⟨"k", "https://api.notiboost.com", 30000, 7⟩ 7 rfl rfl (by decide)⟩

/-- C1 counterexample: a client constructed with a retry count of 0 stores
retry count 3 (because `0 || 3` is 3), and against a transport that always
fails it makes 4 attempts — not at most one. -/
theorem C1_counterexample :
    (mkClient { apiKey := some "k", retries := some 0 }).map Client.retries =
      Except.ok 3 ∧
    (request 3 (fun _ => Except.error "connect ECONNREFUSED")).attempts = 4 ∧
    ¬(request 3 (fun _ => Except.error "connect ECONNREFUSED")).attempts ≤ 1 := by
  refine ⟨rfl, ?_, ?_⟩
  · rw [request_const_error 3 "connect ECONNREFUSED"]
  · rw [request_const_error 3 "connect ECONNREFUSED"]
    decide

/-! Claim C2. -/

/-- C2 (amended): for every HTTP 429 response with retry budget remaining,
the dispatcher records the retry-after delay and attempts again; the delay
is the header's value in seconds when `parseInt` can parse it, and defaults
to 1 second when the header is absent or empty — but a non-empty header
that `parseInt` cannot parse yields a `NaN` delay (modelled `none`), not
the 1-second default.  With no budget remaining the dispatch fails with a
`NotiBoostError` whose status code is 429, the same shape as any other
non-2xx response. -/
theorem C2_rate_limit :
    (∀ (retries : Nat) (net : Nat → Except String Response) (attempt : Nat)
        (sleeps : List (Option Int)) (resp : Response),
        net attempt = .ok resp → resp.statusCode = 429 → attempt < retries →
        requestGo retries net attempt sleeps =
          requestGo retries net (attempt + 1) (sleeps ++ [retryAfterDelayMs resp])) ∧
    (∀ resp : Response, getHeader resp.headers "retry-after" = none →
        retryAfterDelayMs resp = some 1000) ∧
    (∀ resp : Response, getHeader resp.headers "retry-after" = some "" →
        retryAfterDelayMs resp = some 1000) ∧
    (∀ (resp : Response) (s : String) (n : Int),
        getHeader resp.headers "retry-after" = some s → s ≠ "" →
        jsParseInt s = some n → retryAfterDelayMs resp = some (n * 1000)) ∧
    (∀ (resp : Response) (s : String),
        getHeader resp.headers "retry-after" = some s → s ≠ "" →
        jsParseInt s = none → retryAfterDelayMs resp = none) ∧
    (∀ (retries : Nat) (net : Nat → Except String Response) (attempt : Nat)
        (sleeps : List (Option Int)) (resp : Response),
        attempt ≤ retries → net attempt = .ok resp → resp.statusCode = 429 →
        ¬attempt < retries →
        requestGo retries net attempt sleeps =
          { outcome := .notiBoostError (errMessage resp) 429 resp.data,
            attempts := attempt + 1, sleeps := sleeps }) := by
  refine ⟨requestGo_429_retry, ?_, ?_, ?_, ?_, ?_⟩
  · intro resp h
    unfold retryAfterDelayMs
    rw [h]
    rfl
  · intro resp h
    unfold retryAfterDelayMs
    rw [h]
    rfl
  · intro resp s n h hs hp
    unfold retryAfterDelayMs
    rw [h]
    simp only [beq_eq_false_iff_ne.mpr hs]
    rw [if_neg (by simp), hp]
    rfl
  · intro resp s h hs hp
    unfold retryAfterDelayMs
    rw [h]
    simp only [beq_eq_false_iff_ne.mpr hs]
    rw [if_neg (by simp), hp]
    rfl
  · intro retries net attempt sleeps resp hle hn h429 hnlt
    have := requestGo_apiError retries net attempt sleeps resp hle hn
      (by omega) (fun hc => hnlt hc.2)
    rw [this, h429]

/-- C2 witness: each branch of the 429 handling at concrete inputs. -/
theorem C2_rate_limit_witness :
    (requestGo 1 (fun _ => Except.ok ⟨429, [("retry-after", "2")], Json.obj []⟩) 0 [] =
      requestGo 1 (fun _ => Except.ok ⟨429, [("retry-after", "2")], Json.obj []⟩) 1
        ([] ++ [retryAfterDelayMs ⟨429, [("retry-after", "2")], Json.obj []⟩])) ∧
    retryAfterDelayMs ⟨429, [], Json.obj []⟩ = some 1000 ∧
    retryAfterDelayMs ⟨429, [("retry-after", "")], Json.obj []⟩ = some 1000 ∧
    retryAfterDelayMs ⟨429, [("retry-after", "2")], Json.obj []⟩ = some (2 * 1000) ∧
    retryAfterDelayMs ⟨429, [("retry-after", "abc")], Json.obj []⟩ = none ∧
    requestGo 0 (fun _ => Except.ok ⟨429, [], Json.obj []⟩) 0 [] =
      { outcome := .notiBoostError (errMessage ⟨429, [], Json.obj []⟩) 429 (Json.obj []),
        attempts := 0 + 1, sleeps := [] } :=
  ⟨C2_rate_limit.1 1 _ 0 [] ⟨429, [("retry-after", "2")], Json.obj []⟩ rfl rfl (by decide),
   C2_rate_limit.2.1 ⟨429, [], Json.obj []⟩ rfl,
   C2_rate_limit.2.2.1 ⟨429, [("retry-after", "")], Json.obj []⟩ rfl,
   C2_rate_limit.2.2.2.1 ⟨429, [("retry-after", "2")], Json.obj []⟩ "2" 2 rfl
     (by decide) rfl,
   C2_rate_limit.2.2.2.2.1 ⟨429, [("retry-after", "abc")], Json.obj []⟩ "abc" rfl
     (by decide) rfl,
   C2_rate_limit.2.2.2.2.2 0 _ 0 [] ⟨429, [], Json.obj []⟩ (by decide) rfl rfl
     (by decide)⟩

/-- C2 counterexample: a 429 carrying the unparsable header value "abc"
leads to a recorded `NaN` delay, not the 1-second default the claim states
for an unparsable header. -/
theorem C2_counterexample :
    (request 1 (fun i =>
        if i = 0 then Except.ok ⟨429, [("retry-after", "abc")], Json.obj []⟩
        else Except.ok ⟨200, [], Json.obj []⟩)).sleeps = [none] ∧
    (none : Option Int) ≠ some 1000 := by
  constructor
  · unfold request
    rw [requestGo_429_retry 1 _ 0 [] ⟨429, [("retry-after", "abc")], Json.obj []⟩
      rfl rfl (by decide)]
    rw [requestGo_2xx 1 _ 1 _ ⟨200, [], Json.obj []⟩ (by decide) rfl (by constructor <;> decide)]
    rfl
  · decide

/-! Claim C3. -/

/-- C3: for every transport-level failure, while retries remain the
dispatcher records a suspension of 2^attempt seconds (attempt starting at
0) and retries; once the retry count is exhausted the original transport
error is propagated unchanged — in particular an always-failing transport
produces delays 1s, 2s, 4s, ... and then the error. -/
theorem C3_transport_backoff :
    (∀ (retries : Nat) (net : Nat → Except String Response) (attempt : Nat)
        (sleeps : List (Option Int)) (e : String),
        net attempt = .error e → attempt < retries →
        requestGo retries net attempt sleeps =
          requestGo retries net (attempt + 1)
            (sleeps ++ [some ((2 : Int) ^ attempt * 1000)])) ∧
    (∀ (retries : Nat) (net : Nat → Except String Response) (attempt : Nat)
        (sleeps : List (Option Int)) (e : String),
        attempt ≤ retries → net attempt = .error e → ¬attempt < retries →
        requestGo retries net attempt sleeps =
          { outcome := .transportError e, attempts := attempt + 1, sleeps := sleeps }) ∧
    (∀ (retries : Nat) (e : String),
        request retries (fun _ => Except.error e) =
          { outcome := .transportError e, attempts := retries + 1,
            sleeps := (List.range retries).map (fun i => some ((2 : Int) ^ i * 1000)) }) :=
  ⟨requestGo_err_retry, requestGo_err_done, request_const_error⟩

/-- C3 witness: one retried transport failure, one exhausted one, and a
whole run with two retries. -/
theorem C3_transport_backoff_witness :
    (requestGo 2 (fun _ => Except.error "socket hang up") 0 [] =
      requestGo 2 (fun _ => Except.error "socket hang up") 1
        ([] ++ [some ((2 : Int) ^ 0 * 1000)])) ∧
    (requestGo 2 (fun _ => Except.error "socket hang up") 2 [some 1000, some 2000] =
      { outcome := .transportError "socket hang up", attempts := 2 + 1,
        sleeps := [some 1000, some 2000] }) ∧
    request 2 (fun _ => Except.error "socket hang up") =
      { outcome := .transportError "socket hang up", attempts := 2 + 1,
        sleeps := (List.range 2).map (fun i => some ((2 : Int) ^ i * 1000)) } :=
  ⟨C3_transport_backoff.1 2 _ 0 [] "socket hang up" rfl (by decide),
   C3_transport_backoff.2.1 2 _ 2 [some 1000, some 2000] "socket hang up"
     (by decide) rfl (by decide),
   C3_transport_backoff.2.2 2 "socket hang up"⟩

/-! Claim C4. -/

/-- C4 (amended): every non-2xx, non-429 response makes the dispatch fail
on that attempt with no additional attempts, with a `NotiBoostError` whose
status code equals the response's status; its message is the parsed body's
message field when that field is present and truthy (in particular a
non-empty string), and the generic "HTTP <code>" text when the field is
absent or falsy (e.g. the empty string); an always-500 transport yields
exactly one attempt and an error with status 500. -/
theorem C4_api_error :
    (∀ (retries : Nat) (net : Nat → Except String Response) (attempt : Nat)
        (sleeps : List (Option Int)) (resp : Response),
        attempt ≤ retries → net attempt = .ok resp →
        ¬(200 ≤ resp.statusCode ∧ resp.statusCode < 300) → resp.statusCode ≠ 429 →
        requestGo retries net attempt sleeps =
          { outcome := .notiBoostError (errMessage resp) resp.statusCode resp.data,
            attempts := attempt + 1, sleeps := sleeps }) ∧
    (∀ (resp : Response) (m : String),
        resp.data.getField "message" = some (Json.str m) → m ≠ "" →
        errMessage resp = m) ∧
    (∀ resp : Response, resp.data.getField "message" = none →
        errMessage resp = "HTTP " ++ toString resp.statusCode) ∧
    (∀ resp : Response, resp.data.getField "message" = some (Json.str "") →
        errMessage resp = "HTTP " ++ toString resp.statusCode) ∧
    (∀ (retries : Nat) (net : Nat → Except String Response) (resp : Response),
        net 0 = .ok resp → resp.statusCode = 500 →
        (request retries net).attempts = 1 ∧
        (request retries net).outcome =
          .notiBoostError (errMessage resp) 500 resp.data) := by
  refine ⟨?_, ?_, ?_, ?_, ?_⟩
  · intro retries net attempt sleeps resp hle hn hno2 hn429
    exact requestGo_apiError retries net attempt sleeps resp hle hn hno2
      (fun hc => hn429 hc.1)
  · intro resp m h hm
    unfold errMessage
    rw [h]
    show (if (Json.str m).truthy = true then (Json.str m).toJsString
          else "HTTP " ++ toString resp.statusCode) = m
    have ht : (Json.str m).truthy = true := by
      simp [Json.truthy, bne_iff_ne, hm]
    rw [if_pos ht]
    rw [Json.toJsString]
  · intro resp h
    unfold errMessage
    rw [h]
  · intro resp h
    unfold errMessage
    rw [h]
    rfl
  · intro retries net resp hn h500
    have hno2 : ¬(200 ≤ resp.statusCode ∧ resp.statusCode < 300) := by omega
    have hn429 : ¬(resp.statusCode = 429 ∧ 0 < retries) := by omega
    have heq := requestGo_apiError retries net 0 [] resp (Nat.zero_le _) hn hno2 hn429
    unfold request
    rw [heq, h500]
    exact ⟨rfl, rfl⟩

/-- C4 witness: each errMessage branch and the 500 example at concrete
inputs. -/
theorem C4_api_error_witness :
    (requestGo 2 (fun _ => Except.ok ⟨404, [], Json.obj []⟩) 0 [] =
      { outcome := .notiBoostError (errMessage ⟨404, [], Json.obj []⟩) 404 (Json.obj []),
        attempts := 0 + 1, sleeps := [] }) ∧
    errMessage ⟨404, [], Json.obj [("message", Json.str "not found")]⟩ = "not found" ∧
    errMessage ⟨404, [], Json.obj []⟩ = "HTTP " ++ toString 404 ∧
    errMessage ⟨404, [], Json.obj [("message", Json.str "")]⟩ = "HTTP " ++ toString 404 ∧
    ((request 0 (fun _ => Except.ok ⟨500, [], Json.obj []⟩)).attempts = 1 ∧
      (request 0 (fun _ => Except.ok ⟨500, [], Json.obj []⟩)).outcome =
        .notiBoostError (errMessage ⟨500, [], Json.obj []⟩) 500 (Json.obj [])) :=
  ⟨C4_api_error.1 2 _ 0 [] ⟨404, [], Json.obj []⟩ (by decide) rfl (by decide) (by decide),
   C4_api_error.2.1 ⟨404, [], Json.obj [("message", Json.str "not found")]⟩
     "not found" rfl (by decide),
   C4_api_error.2.2.1 ⟨404, [], Json.obj []⟩ rfl,
   C4_api_error.2.2.2.1 ⟨404, [], Json.obj [("message", Json.str "")]⟩ rfl,
   C4_api_error.2.2.2.2 0 _ ⟨500, [], Json.obj []⟩ rfl rfl⟩

/-- C4 counterexample: a 500 response whose body carries the present (but
empty) message field "" produces the error message "HTTP 500", not the
message field's value, contradicting the claim's unconditional "message
field when present". -/
theorem C4_counterexample :
    (Json.obj [("message", Json.str "")]).getField "message" = some (Json.str "") ∧
    request 0 (fun _ => Except.ok ⟨500, [], Json.obj [("message", Json.str "")]⟩) =
      { outcome := .notiBoostError "HTTP 500" 500 (Json.obj [("message", Json.str "")]),
        attempts := 1, sleeps := [] } ∧
    ("HTTP 500" : String) ≠ "" := by
  refine ⟨rfl, ?_, by simp⟩
  unfold request
  rw [requestGo_apiError 0 _ 0 [] ⟨500, [], Json.obj [("message", Json.str "")]⟩
    (by decide) rfl (by decide) (by decide)]
  rfl

/-! Claim C5. -/

/-- C5 (amended): for a 2xx response the dispatcher returns the result of
body parsing: the parsed JSON value unchanged when the body is valid JSON,
and an object whose single message field holds the raw body text when a
non-empty body fails to parse — but an empty body short-circuits to the
empty object instead of going through the parser. -/
theorem C5_body_parsing :
    (∀ (parse : String → Option Json) (s : String) (j : Json),
        s ≠ "" → parse s = some j → parseBody parse s = j) ∧
    (∀ (parse : String → Option Json) (s : String),
        s ≠ "" → parse s = none →
        parseBody parse s = Json.obj [("message", Json.str s)]) ∧
    (∀ parse : String → Option Json, parseBody parse "" = Json.obj []) ∧
    (∀ (retries : Nat) (parse : String → Option Json)
        (rawNet : Nat → Except String RawResponse) (attempt : Nat)
        (sleeps : List (Option Int)) (raw : RawResponse),
        attempt ≤ retries → rawNet attempt = .ok raw →
        200 ≤ raw.statusCode → raw.statusCode < 300 →
        requestGo retries (netOf parse rawNet) attempt sleeps =
          { outcome := .ok (parseBody parse raw.body),
            attempts := attempt + 1, sleeps := sleeps }) := by
  refine ⟨?_, ?_, ?_, ?_⟩
  · intro parse s j hs hp
    unfold parseBody
    rw [if_neg (by simp [hs]), hp]
  · intro parse s hs hp
    unfold parseBody
    rw [if_neg (by simp [hs]), hp]
  · intro parse
    rfl
  · intro retries parse rawNet attempt sleeps raw hle hn h1 h2
    have hnet : netOf parse rawNet attempt = .ok (mkResponse parse raw) := by
      unfold netOf
      rw [hn]
      rfl
    exact requestGo_2xx retries _ attempt sleeps (mkResponse parse raw) hle hnet ⟨h1, h2⟩

/-- C5 witness: a parsed JSON body returned unchanged, a non-empty
unparsable body wrapped in a message object, the empty-body case, and a
2xx dispatch returning the parsed body. -/
theorem C5_body_parsing_witness :
    parseBody (fun s => if s = "[]" then some (Json.arr []) else none) "[]" =
      Json.arr [] ∧
    parseBody (fun s => if s = "[]" then some (Json.arr []) else none) "OK" =
      Json.obj [("message", Json.str "OK")] ∧
    parseBody (fun s => if s = "[]" then some (Json.arr []) else none) "" =
      Json.obj [] ∧
    requestGo 3 (netOf (fun _ => none) (fun _ => Except.ok ⟨200, [], "OK"⟩)) 0 [] =
      { outcome := .ok (parseBody (fun _ => none) "OK"), attempts := 0 + 1,
        sleeps := [] } :=
  ⟨C5_body_parsing.1 (fun s => if s = "[]" then some (Json.arr []) else none) "[]"
     (Json.arr []) (by decide) (by simp),
   C5_body_parsing.2.1 (fun s => if s = "[]" then some (Json.arr []) else none) "OK"
     (by decide) (by simp),
   C5_body_parsing.2.2.1 (fun s => if s = "[]" then some (Json.arr []) else none),
   C5_body_parsing.2.2.2 3 (fun _ => none) (fun _ => Except.ok ⟨200, [], "OK"⟩) 0 []
     ⟨200, [], "OK"⟩ (by decide) rfl (by decide) (by decide)⟩

/-- C5 counterexample: a 2xx response whose body is the empty string — a
text `JSON.parse` rejects — yields the empty object, not an object whose
message field holds the raw body text, contradicting the claim for this
non-JSON body. -/
theorem C5_counterexample :
    requestRaw 3 (fun _ => none) (fun _ => Except.ok ⟨200, [], ""⟩) =
      { outcome := .ok (Json.obj []), attempts := 1, sleeps := [] } ∧
    Json.obj [] ≠ Json.obj [("message", Json.str "")] := by
  constructor
  · unfold requestRaw request
    rw [requestGo_2xx 3 _ 0 [] ⟨200, [], Json.obj []⟩ (by decide) rfl (by decide)]
  · simp

/-! Claim C6. -/

/-- Equation for `JSON.stringify` on a JSON string value. -/
theorem stringify_str (s : String) :
    (Json.str s).stringify = "\"" ++ jsonEscape s ++ "\"" := by
  rw [Json.stringify]

/-- C6 (amended): every dispatched request carries the bearer-style
`Authorization` header built from the configured credential and the JSON
`Content-Type` header unless the caller overrides them, and caller-supplied
override headers win on conflict — except that for payload-bearing
requests (POST/PUT with truthy data) the `Content-Length` header is
overwritten after the spread with the byte length of the serialized body,
so a caller-supplied `Content-Length` does not survive on such requests. -/
theorem C6_headers :
    (∀ (apiKey : String) (ov : List (String × String)) (method : String)
        (data : Option Json), "Authorization" ∉ ov.map Prod.fst →
        getHeader (dispatchHeaders apiKey ov method data) "Authorization" =
          some ("Bearer " ++ apiKey)) ∧
    (∀ (apiKey : String) (ov : List (String × String)) (method : String)
        (data : Option Json), "Content-Type" ∉ ov.map Prod.fst →
        getHeader (dispatchHeaders apiKey ov method data) "Content-Type" =
          some "application/json") ∧
    (∀ (apiKey : String) (ov : List (String × String)) (method : String)
        (data : Option Json) (n v : String), (ov.map Prod.fst).Nodup →
        (n, v) ∈ ov → n ≠ "Content-Length" →
        getHeader (dispatchHeaders apiKey ov method data) n = some v) ∧
    (∀ (apiKey : String) (ov : List (String × String)) (method : String)
        (data : Option Json) (n v : String), (ov.map Prod.fst).Nodup →
        (n, v) ∈ ov → requestBody method data = none →
        getHeader (dispatchHeaders apiKey ov method data) n = some v) ∧
    (∀ (apiKey : String) (ov : List (String × String)) (method : String)
        (data : Option Json) (b : String), requestBody method data = some b →
        getHeader (dispatchHeaders apiKey ov method data) "Content-Length" =
          some (toString (strUtf8Len b))) := by
  have hbase1 : ∀ apiKey : String,
      getHeader [("Authorization", "Bearer " ++ apiKey),
        ("Content-Type", "application/json")] "Authorization" =
        some ("Bearer " ++ apiKey) := by
    intro apiKey
    exact lookup_cons_self _ _ _
  have hbase2 : ∀ apiKey : String,
      getHeader [("Authorization", "Bearer " ++ apiKey),
        ("Content-Type", "application/json")] "Content-Type" =
        some "application/json" := by
    intro apiKey
    unfold getHeader
    rw [lookup_cons_ne _ _ _ _ (by decide)]
    exact lookup_cons_self _ _ _
  refine ⟨?_, ?_, ?_, ?_, ?_⟩
  · intro apiKey ov method data hnm
    unfold dispatchHeaders
    cases hb : requestBody method data with
    | some b =>
      rw [getHeader_setKey_other _ _ _ _ (by decide)]
      unfold buildHeaders
      rw [getHeader_spread_not_mem "Authorization" ov _ hnm]
      exact hbase1 apiKey
    | none =>
      unfold buildHeaders
      rw [getHeader_spread_not_mem "Authorization" ov _ hnm]
      exact hbase1 apiKey
  · intro apiKey ov method data hnm
    unfold dispatchHeaders
    cases hb : requestBody method data with
    | some b =>
      rw [getHeader_setKey_other _ _ _ _ (by decide)]
      unfold buildHeaders
      rw [getHeader_spread_not_mem "Content-Type" ov _ hnm]
      exact hbase2 apiKey
    | none =>
      unfold buildHeaders
      rw [getHeader_spread_not_mem "Content-Type" ov _ hnm]
      exact hbase2 apiKey
  · intro apiKey ov method data n v hnd hm hncl
    unfold dispatchHeaders
    cases hb : requestBody method data with
    | some b =>
      rw [getHeader_setKey_other _ _ _ _ hncl]
      exact getHeader_spread_mem n v ov _ hnd hm
    | none =>
      exact getHeader_spread_mem n v ov _ hnd hm
  · intro apiKey ov method data n v hnd hm hb
    unfold dispatchHeaders
    rw [hb]
    exact getHeader_spread_mem n v ov _ hnd hm
  · intro apiKey ov method data b hb
    unfold dispatchHeaders
    rw [hb]
    exact getHeader_setKey_self _ _ _

/-- C6 witness: default headers, a surviving caller override, and the
`Content-Length` overwrite at concrete inputs. -/
theorem C6_headers_witness :
    getHeader (dispatchHeaders "k" [("Idempotency-Key", "abc")] "GET" none)
        "Authorization" = some ("Bearer " ++ "k") ∧
    getHeader (dispatchHeaders "k" [("Idempotency-Key", "abc")] "GET" none)
        "Content-Type" = some "application/json" ∧
    getHeader (dispatchHeaders "k" [("Idempotency-Key", "abc")] "POST"
        (some (Json.str "b"))) "Idempotency-Key" = some "abc" ∧
    getHeader (dispatchHeaders "k" [("Idempotency-Key", "abc")] "GET" none)
        "Idempotency-Key" = some "abc" ∧
    getHeader (dispatchHeaders "k" [] "POST" (some (Json.str "b")))
        "Content-Length" = some (toString (strUtf8Len ((Json.str "b").stringify))) :=
  ⟨C6_headers.1 "k" [("Idempotency-Key", "abc")] "GET" none (by decide),
   C6_headers.2.1 "k" [("Idempotency-Key", "abc")] "GET" none (by decide),
   C6_headers.2.2.1 "k" [("Idempotency-Key", "abc")] "POST" (some (Json.str "b"))
     "Idempotency-Key" "abc" (by decide) (by decide) (by decide),
   C6_headers.2.2.2.1 "k" [("Idempotency-Key", "abc")] "GET" none
     "Idempotency-Key" "abc" (by decide) (by decide) rfl,
   C6_headers.2.2.2.2 "k" [] "POST" (some (Json.str "b"))
     ((Json.str "b").stringify)
     (by unfold requestBody
         show (if ((Json.str "b").truthy && ("POST" == "POST" || "POST" == "PUT")) = true
               then some (Json.str "b").stringify else none) = some (Json.str "b").stringify
         rw [if_pos (by decide)])⟩

/-- C6 counterexample: on a POST with a body, a caller-supplied
`Content-Length` of "999" is overwritten with the byte length of the
serialized body ("3" for the body made of a quoted one-letter string), so
the dispatched value is not the caller's value. -/
theorem C6_counterexample :
    getHeader (dispatchHeaders "k" [("Content-Length", "999")] "POST"
        (some (Json.str "b"))) "Content-Length" = some "3" ∧
    (some "3" : Option String) ≠ some "999" := by
  constructor
  · have hb : requestBody "POST" (some (Json.str "b")) = some "\"b\"" := by
      unfold requestBody
      show (if ((Json.str "b").truthy && ("POST" == "POST" || "POST" == "PUT")) = true
            then some (Json.str "b").stringify else none) = some "\"b\""
      rw [if_pos (by decide), stringify_str]
      rfl
    unfold dispatchHeaders
    rw [hb]
    decide
  · simp

/-! Claim C7. -/

/-- Payload when the event has no (or a falsy) occurrence timestamp: the
field is appended with the clock reading. -/
theorem ingestPayload_of_none (now : String) (fs : List (String × Json))
    (h : (Json.obj fs).getField "occurred_at" = none) :
    ingestPayload now (Json.obj fs) =
      Json.obj (fs ++ [("occurred_at", Json.str now)]) := by
  unfold ingestPayload
  rw [h]
  rw [if_neg (by decide)]
  exact setField_of_getField_none fs _ _ h

/-- Payload when the event carries a truthy occurrence timestamp: the event
passes through unchanged. -/
theorem ingestPayload_of_truthy (now : String) (ev v : Json)
    (h : ev.getField "occurred_at" = some v) (ht : v.truthy = true) :
    ingestPayload now ev = ev := by
  unfold ingestPayload
  rw [h]
  rw [if_pos (show (some v).elim false Json.truthy = true from ht)]

/-- C7 (amended): an event with no occurred_at field is dispatched with
occurred_at set to the call-time clock reading and every other field
unchanged, and an event whose occurred_at is present with a truthy value
is dispatched unchanged — but a present falsy occurred_at (e.g. the empty
string) is overwritten like a missing one, so "present" alone does not
guarantee an unchanged dispatch. -/
theorem C7_ingest_timestamp :
    (∀ (now : String) (fs : List (String × Json)),
        (Json.obj fs).getField "occurred_at" = none →
        (eventsIngest now (Json.obj fs)).dispatched.data =
          some (Json.obj (fs ++ [("occurred_at", Json.str now)])) ∧
        (Json.obj (fs ++ [("occurred_at", Json.str now)])).getField "occurred_at" =
          some (Json.str now) ∧
        (∀ k : String, k ≠ "occurred_at" →
          (Json.obj (fs ++ [("occurred_at", Json.str now)])).getField k =
            (Json.obj fs).getField k)) ∧
    (∀ (now : String) (ev v : Json), ev.getField "occurred_at" = some v →
        v.truthy = true → (eventsIngest now ev).dispatched.data = some ev) ∧
    (∀ (now : String) (ev : Json),
        (eventsIngest now ev).dispatched.method = "POST" ∧
        (eventsIngest now ev).dispatched.path = "/api/v1/events") := by
  refine ⟨?_, ?_, fun _ _ => ⟨rfl, rfl⟩⟩
  · intro now fs h
    refine ⟨?_, getField_append_self fs _ _ h, ?_⟩
    · show some (ingestPayload now (Json.obj fs)) = _
      rw [ingestPayload_of_none now fs h]
    · intro k hk
      exact getField_append_other fs _ k _ hk
  · intro now ev v h ht
    show some (ingestPayload now ev) = some ev
    rw [ingestPayload_of_truthy now ev v h ht]

/-- C7 witness: timestamp filled for a missing field with the other field
preserved, and an event with a truthy timestamp passing through. -/
theorem C7_ingest_timestamp_witness :
    (eventsIngest "2026-01-01T00:00:00.000Z"
        (Json.obj [("event_name", Json.str "x")])).dispatched.data =
      some (Json.obj ([("event_name", Json.str "x")] ++
        [("occurred_at", Json.str "2026-01-01T00:00:00.000Z")])) ∧
    (Json.obj ([("event_name", Json.str "x")] ++
        [("occurred_at", Json.str "2026-01-01T00:00:00.000Z")])).getField "event_name" =
      (Json.obj [("event_name", Json.str "x")]).getField "event_name" ∧
    (eventsIngest "2026-01-01T00:00:00.000Z"
        (Json.obj [("occurred_at", Json.str "2025-12-01T10:00:00Z")])).dispatched.data =
      some (Json.obj [("occurred_at", Json.str "2025-12-01T10:00:00Z")]) :=
  ⟨(C7_ingest_timestamp.1 "2026-01-01T00:00:00.000Z"
      [("event_name", Json.str "x")] rfl).1,
   (C7_ingest_timestamp.1 "2026-01-01T00:00:00.000Z"
      [("event_name", Json.str "x")] rfl).2.2 "event_name" (by decide),
   C7_ingest_timestamp.2.1 "2026-01-01T00:00:00.000Z"
     (Json.obj [("occurred_at", Json.str "2025-12-01T10:00:00Z")])
     (Json.str "2025-12-01T10:00:00Z") rfl (by decide)⟩

/-- C7 counterexample: an event whose occurred_at is present but empty is
not dispatched unchanged — the empty string is falsy, so the wrapper
overwrites it with the clock reading. -/
theorem C7_counterexample :
    (Json.obj [("occurred_at", Json.str ""), ("event_name", Json.str "x")]).getField
        "occurred_at" = some (Json.str "") ∧
    (eventsIngest "2026-01-01T00:00:00.000Z"
        (Json.obj [("occurred_at", Json.str ""), ("event_name", Json.str "x")])).dispatched.data =
      some (Json.obj [("occurred_at", Json.str "2026-01-01T00:00:00.000Z"),
        ("event_name", Json.str "x")]) ∧
    some (Json.obj [("occurred_at", Json.str "2026-01-01T00:00:00.000Z"),
        ("event_name", Json.str "x")]) ≠
      some (Json.obj [("occurred_at", Json.str ""), ("event_name", Json.str "x")]) := by
  refine ⟨rfl, rfl, by simp⟩

/-! Claim C8. -/

/-- C8: templates.list serializes its options mapping into a query string
appended to the templates path after a question mark and dispatches a GET
with no body; with options channel=zns the path ends in "?channel=zns",
and with an empty mapping the path is the bare templates path. -/
theorem C8_templates_list :
    (∀ options : List (String × String),
        (templatesList options).method = "GET" ∧ (templatesList options).data = none) ∧
    (templatesList [("channel", "zns")]).path = "/api/v1/templates?channel=zns" ∧
    ("/api/v1/templates?channel=zns" : String) = "/api/v1/templates" ++ "?channel=zns" ∧
    (templatesList []).path = "/api/v1/templates" ∧
    (∀ options : List (String × String), serializeQuery options ≠ "" →
        (templatesList options).path = "/api/v1/templates?" ++ serializeQuery options) := by
  refine ⟨fun _ => ⟨rfl, rfl⟩, by decide, by decide, rfl, ?_⟩
  intro options h
  show templatesListPath options = _
  simp only [templatesListPath]
  rw [if_neg (by simp [h])]

/-- C8 witness: method and body at a concrete mapping, and the appended
query string for a mapping whose value needs encoding. -/
theorem C8_templates_list_witness :
    ((templatesList [("name", "a b")]).method = "GET" ∧
      (templatesList [("name", "a b")]).data = none) ∧
    (templatesList [("name", "a b")]).path =
      "/api/v1/templates?" ++ serializeQuery [("name", "a b")] :=
  ⟨C8_templates_list.1 [("name", "a b")],
   C8_templates_list.2.2.2.2 [("name", "a b")] (by decide)⟩

/-! Claim C9. -/

/-- C9: a dispatch leaves the client configuration unchanged — for every
method, payload, header overrides and transport behaviour, the
configuration record (and each of its fields) after the call equals the
one produced at construction. -/
theorem C9_config_frame :
    (∀ (c : Client) (method : String) (data : Option Json)
        (ov : List (String × String)) (net : Nat → Except String Response),
        (clientRequest c method data ov net).clientAfter = c) ∧
    (∀ (opts : ClientOptions) (c : Client), mkClient opts = .ok c →
        ∀ (method : String) (data : Option Json) (ov : List (String × String))
          (net : Nat → Except String Response),
          (clientRequest c method data ov net).clientAfter.apiKey = c.apiKey ∧
          (clientRequest c method data ov net).clientAfter.baseURL = c.baseURL ∧
          (clientRequest c method data ov net).clientAfter.timeout = c.timeout ∧
          (clientRequest c method data ov net).clientAfter.retries = c.retries) :=
  ⟨fun _ _ _ _ _ => rfl, fun _ _ _ _ _ _ _ => ⟨rfl, rfl, rfl, rfl⟩⟩

/-- C9 witness: the configuration of a freshly constructed client is
untouched by a failing POST dispatch. -/
theorem C9_config_frame_witness :
    (clientRequest ⟨"k", "https://api.notiboost.com", 30000, 3⟩ "POST"
        (some (Json.obj [])) [] (fun _ => Except.error "x")).clientAfter.apiKey =
      (⟨"k", "https://api.notiboost.com", 30000, 3⟩ : Client).apiKey ∧
    (clientRequest ⟨"k", "https://api.notiboost.com", 30000, 3⟩ "POST"
        (some (Json.obj [])) [] (fun _ => Except.error "x")).clientAfter.retries =
      (⟨"k", "https://api.notiboost.com", 30000, 3⟩ : Client).retries :=
  ⟨(C9_config_frame.2 { apiKey := some "k" }
      ⟨"k", "https://api.notiboost.com", 30000, 3⟩ rfl "POST"
      (some (Json.obj [])) [] (fun _ => Except.error "x")).1,
   (C9_config_frame.2 { apiKey := some "k" }
      ⟨"k", "https://api.notiboost.com", 30000, 3⟩ rfl "POST"
      (some (Json.obj [])) [] (fun _ => Except.error "x")).2.2.2⟩

/-! Claim C10. -/

/-- C10 (amended): events.ingest writes into the caller's own event object:
when occurred_at is missing, the caller's object afterwards carries
occurred_at set to the generated timestamp, and the dispatched payload is
that same object; an object carrying a truthy occurred_at is left
unmodified — but one carrying a falsy occurred_at (e.g. 0 or the empty
string) is modified just like a missing one. -/
theorem C10_ingest_mutation :
    (∀ (now : String) (fs : List (String × Json)),
        (Json.obj fs).getField "occurred_at" = none →
        (eventsIngest now (Json.obj fs)).callerEvent.getField "occurred_at" =
          some (Json.str now) ∧
        (eventsIngest now (Json.obj fs)).dispatched.data =
          some ((eventsIngest now (Json.obj fs)).callerEvent)) ∧
    (∀ (now : String) (ev v : Json), ev.getField "occurred_at" = some v →
        v.truthy = true → (eventsIngest now ev).callerEvent = ev) := by
  refine ⟨?_, ?_⟩
  · intro now fs h
    constructor
    · show (ingestPayload now (Json.obj fs)).getField "occurred_at" = _
      rw [ingestPayload_of_none now fs h]
      exact getField_append_self fs _ _ h
    · rfl
  · intro now ev v h ht
    exact ingestPayload_of_truthy now ev v h ht

/-- C10 witness: the caller's object after ingesting an event without a
timestamp carries the generated one and coincides with the dispatched
payload; a truthy timestamp is untouched. -/
theorem C10_ingest_mutation_witness :
    (eventsIngest "2026-02-02T00:00:00.000Z"
        (Json.obj [("event_id", Json.str "e1")])).callerEvent.getField "occurred_at" =
      some (Json.str "2026-02-02T00:00:00.000Z") ∧
    (eventsIngest "2026-02-02T00:00:00.000Z"
        (Json.obj [("event_id", Json.str "e1")])).dispatched.data =
      some ((eventsIngest "2026-02-02T00:00:00.000Z"
        (Json.obj [("event_id", Json.str "e1")])).callerEvent) ∧
    (eventsIngest "2026-02-02T00:00:00.000Z"
        (Json.obj [("occurred_at", Json.str "2025-12-01T10:00:00Z")])).callerEvent =
      Json.obj [("occurred_at", Json.str "2025-12-01T10:00:00Z")] :=
  ⟨(C10_ingest_mutation.1 "2026-02-02T00:00:00.000Z"
      [("event_id", Json.str "e1")] rfl).1,
   (C10_ingest_mutation.1 "2026-02-02T00:00:00.000Z"
      [("event_id", Json.str "e1")] rfl).2,
   C10_ingest_mutation.2 "2026-02-02T00:00:00.000Z"
     (Json.obj [("occurred_at", Json.str "2025-12-01T10:00:00Z")])
     (Json.str "2025-12-01T10:00:00Z") rfl (by decide)⟩

/-- C10 counterexample: an event that already carries occurred_at — with
the falsy value 0 — is modified by the call: afterwards the caller's
object holds the generated timestamp instead, contradicting the claim
that objects already carrying occurred_at are not modified. -/
theorem C10_counterexample :
    (Json.obj [("occurred_at", Json.num 0)]).getField "occurred_at" =
      some (Json.num 0) ∧
    (eventsIngest "2026-02-02T00:00:00.000Z"
        (Json.obj [("occurred_at", Json.num 0)])).callerEvent =
      Json.obj [("occurred_at", Json.str "2026-02-02T00:00:00.000Z")] ∧
    Json.obj [("occurred_at", Json.str "2026-02-02T00:00:00.000Z")] ≠
      Json.obj [("occurred_at", Json.num 0)] := by
  refine ⟨rfl, rfl, by simp⟩

end NotiBoostSdk
